import Mathlib

/-
Verification of the SGAIP (Stateless Global Agent Identity Protocol)
reference implementation.

Byte sequences are modelled as List Nat (each entry a byte value) and
Python strings as List Char.  The hashlib.sha256(...).hexdigest() call used
by derive_agent_id is embedded as a complete executable SHA-256 over byte
lists.  The Ed25519 primitives from the cryptography library are external
to the repository and are modelled abstractly as a signature-scheme
structure; the contract of the library (verification succeeds exactly on
honestly produced signatures) appears as explicit hypotheses where a claim
needs it.
-/

namespace Sgaip

/-! ## SHA-256 (model of hashlib.sha256) -/

def w32 : Nat := 4294967296

def rotr (n x : Nat) : Nat :=
  ((x >>> n) ||| (x <<< (32 - n))) % w32

def ch (e f g : Nat) : Nat :=
  (e &&& f) ^^^ ((e ^^^ 4294967295) &&& g)

def maj (a b c : Nat) : Nat :=
  (a &&& b) ^^^ ((a ^^^ b) &&& c)

def bigSigma0 (x : Nat) : Nat := rotr 2 x ^^^ rotr 13 x ^^^ rotr 22 x

def bigSigma1 (x : Nat) : Nat := rotr 6 x ^^^ rotr 11 x ^^^ rotr 25 x

def smallSigma0 (x : Nat) : Nat := rotr 7 x ^^^ rotr 18 x ^^^ (x >>> 3)

def smallSigma1 (x : Nat) : Nat := rotr 17 x ^^^ rotr 19 x ^^^ (x >>> 10)

def K : List Nat :=
  [1116352408, 1899447441, 3049323471, 3921009573, 961987163, 1508970993,
   2453635748, 2870763221, 3624381080, 310598401, 607225278, 1426881987,
   1925078388, 2162078206, 2614888103, 3248222580, 3835390401, 4022224774,
   264347078, 604807628, 770255983, 1249150122, 1555081692, 1996064986,
   2554220882, 2821834349, 2952996808, 3210313671, 3336571891, 3584528711,
   113926993, 338241895, 666307205, 773529912, 1294757372, 1396182291,
   1695183700, 1986661051, 2177026350, 2456956037, 2730485921, 2820302411,
   3259730800, 3345764771, 3516065817, 3600352804, 4094571909, 275423344,
   430227734, 506948616, 659060556, 883997877, 958139571, 1322822218,
   1537002063, 1747873779, 1955562222, 2024104815, 2227730452, 2361852424,
   2428436474, 2756734187, 3204031479, 3329325298]

structure Hash8 where
  a : Nat
  b : Nat
  c : Nat
  d : Nat
  e : Nat
  f : Nat
  g : Nat
  h : Nat
deriving Repr, DecidableEq

def initH : Hash8 :=
  ⟨1779033703, 3144134277, 1013904242, 2773480762,
   1359893119, 2600822924, 528734635, 1541459225⟩

def sha256round (wt kt : Nat) (s : Hash8) : Hash8 :=
  let T1 := (s.h + bigSigma1 s.e + ch s.e s.f s.g + kt + wt) % w32
  let T2 := (bigSigma0 s.a + maj s.a s.b s.c) % w32
  ⟨(T1 + T2) % w32, s.a, s.b, s.c, (s.d + T1) % w32, s.e, s.f, s.g⟩

def stepW (ws : List Nat) : List Nat :=
  ws ++ [(smallSigma1 (ws.getD (ws.length - 2) 0) + ws.getD (ws.length - 7) 0 +
          smallSigma0 (ws.getD (ws.length - 15) 0) + ws.getD (ws.length - 16) 0) % w32]

def msgSchedule (block : List Nat) : List Nat :=
  Nat.repeat stepW 48 block

def add8 (s t : Hash8) : Hash8 :=
  ⟨(s.a + t.a) % w32, (s.b + t.b) % w32, (s.c + t.c) % w32, (s.d + t.d) % w32,
   (s.e + t.e) % w32, (s.f + t.f) % w32, (s.g + t.g) % w32, (s.h + t.h) % w32⟩

def sha256compress (s : Hash8) (block : List Nat) : Hash8 :=
  let W := msgSchedule block
  let t := (List.range 64).foldl (fun st i => sha256round (W.getD i 0) (K.getD i 0) st) s
  add8 s t

def bytesToWords : List Nat → List Nat
  | a :: b :: c :: d :: rest =>
      ((a % 256) * 16777216 + (b % 256) * 65536 + (c % 256) * 256 + d % 256) :: bytesToWords rest
  | _ => []

def lenBytes (bits : Nat) : List Nat :=
  [(bits >>> 56) % 256, (bits >>> 48) % 256, (bits >>> 40) % 256, (bits >>> 32) % 256,
   (bits >>> 24) % 256, (bits >>> 16) % 256, (bits >>> 8) % 256, bits % 256]

def padMessage (msg : List Nat) : List Nat :=
  msg ++ 0x80 :: List.replicate ((64 - ((msg.length + 9) % 64)) % 64) 0 ++
    lenBytes (8 * msg.length)

def processBlocksAux : Nat → Hash8 → List Nat → Hash8
  | 0, s, _ => s
  | _ + 1, s, [] => s
  | fuel + 1, s, ws => processBlocksAux fuel (sha256compress s (ws.take 16)) (ws.drop 16)

def processBlocks (s : Hash8) (ws : List Nat) : Hash8 :=
  processBlocksAux ws.length s ws

def sha256 (msg : List Nat) : Hash8 :=
  processBlocks initH (bytesToWords (padMessage msg))

/-! ### Hex digest (model of .hexdigest()) -/

def hexDigits : List Char := "0123456789abcdef".toList

def hexChar (n : Nat) : Char := hexDigits.getD (n % 16) '0'

def wordToHex (w : Nat) : List Char :=
  [hexChar (w / 268435456), hexChar (w / 16777216), hexChar (w / 1048576),
   hexChar (w / 65536), hexChar (w / 4096), hexChar (w / 256),
   hexChar (w / 16), hexChar w]

def digestHex (s : Hash8) : List Char :=
  wordToHex s.a ++ wordToHex s.b ++ wordToHex s.c ++ wordToHex s.d ++
  wordToHex s.e ++ wordToHex s.f ++ wordToHex s.g ++ wordToHex s.h

def sha256hex (msg : List Nat) : List Char :=
  digestHex (sha256 msg)

/-! ## Core protocol (sgaip/core.py) -/

/-- Protocol constant, the bytes of the ASCII literal with content SGAIP-v1. -/
def IDENTITY_DOMAIN : List Nat := [83, 71, 65, 73, 80, 45, 118, 49]

/-- Embeds derive_agent_id from core.py: the hex digest of sha256 over the
public key bytes concatenated with the domain tag. -/
def derive_agent_id (public_key_bytes : List Nat) : List Char :=
  sha256hex (public_key_bytes ++ IDENTITY_DOMAIN)

/-- Abstract model of the Ed25519 primitives of the external cryptography
library: key objects, raw serialization, deserialization that can fail,
signing, and boolean verification.  The code under verification only ever
calls these operations; properties of the scheme that a claim relies on
appear as explicit hypotheses of that claim. -/
structure Ed25519Lib where
  PrivKey : Type
  PubKey : Type
  public_key : PrivKey → PubKey
  public_bytes : PubKey → List Nat
  from_public_bytes : List Nat → Option PubKey
  sign : PrivKey → List Nat → List Nat
  verify : PubKey → List Nat → List Nat → Bool

/-- Embeds generate_keypair from core.py: the entropy drawn by the library
is made an explicit argument; the returned pair couples a private key with
its own public half. -/
def generate_keypair (E : Ed25519Lib) (entropy : E.PrivKey) : E.PrivKey × E.PubKey :=
  (entropy, E.public_key entropy)

/-- Embeds serialize_public_key from core.py: raw canonical encoding. -/
def serialize_public_key (E : Ed25519Lib) (public_key : E.PubKey) : List Nat :=
  E.public_bytes public_key

/-- Embeds sign_challenge from core.py. -/
def sign_challenge (E : Ed25519Lib) (private_key : E.PrivKey) (challenge : List Nat) : List Nat :=
  E.sign private_key challenge

/-- The exceptions verify_proof can raise: ValueError from
Ed25519PublicKey.from_public_bytes on malformed key bytes, and
InvalidSignature from the verify call. -/
inductive PyError where
  | valueError
  | invalidSignature
deriving Repr, DecidableEq

/-- Embeds verify_proof from core.py.  The order of effects follows the
source: reconstruct the public key (may raise), verify the signature (may
raise), then derive the AID and compare it with expected_aid when one was
supplied. -/
def verify_proof (E : Ed25519Lib) (public_key_bytes challenge signature : List Nat)
    (expected_aid : Option (List Char)) : Except PyError Bool :=
  match E.from_public_bytes public_key_bytes with
  | none => Except.error PyError.valueError
  | some public_key =>
    if E.verify public_key signature challenge then
      let derived_aid := derive_agent_id public_key_bytes
      match expected_aid with
      | some expected => Except.ok (derived_aid == expected)
      | none => Except.ok true
    else Except.error PyError.invalidSignature

/-- A concrete instantiation of the abstract library used to exercise the
theorems on explicit inputs.  Keys are byte lists, a signature records the
public key and the challenge, and verification recomputes it. -/
def Toy : Ed25519Lib where
  PrivKey := List Nat
  PubKey := List Nat
  public_key := fun sk => sk
  public_bytes := fun pk => pk
  from_public_bytes := fun bs => some bs
  sign := fun sk c => sk ++ 255 :: c
  verify := fun pk sig c => sig == pk ++ 255 :: c

/-! ## Standalone CLI (src/cli/sgaip_cli.py) -/

/-- Embeds derive_aid from sgaip_cli.py. -/
def derive_aid (public_key_bytes : List Nat) : List Char :=
  sha256hex (public_key_bytes ++ [83, 71, 65, 73, 80, 45, 118, 49])

/-- Python truthiness of an optional string argument: present and
non-empty. -/
def truthy : Option (List Char) → Bool
  | none => false
  | some s => !s.isEmpty

/-- The challenge data a CLI command ends up operating on: the encoded
inline message, or the contents of the named file. -/
inductive SignData where
  | inline (text : List Char)
  | fromFile (path : List Char)
deriving Repr, DecidableEq

/-- Observable outcome of a CLI sign or verify command, abstracting file
contents but recording whether key material was loaded before failing. -/
inductive CmdResult where
  | exitBeforeKeyLoad
  | completed (keyPath : List Char) (data : SignData)
  | crashAfterKeyLoad (keyPath : List Char)
deriving Repr, DecidableEq

namespace StandaloneCli

/-- Embeds cmd_sign from sgaip_cli.py: the private key is loaded first,
then data is the inline message when that argument is truthy, otherwise
the file is opened, which raises TypeError when no file was given. -/
def cmd_sign (priv : List Char) (message file : Option (List Char)) : CmdResult :=
  if truthy message then CmdResult.completed priv (SignData.inline (message.getD []))
  else
    match file with
    | some p => CmdResult.completed priv (SignData.fromFile p)
    | none => CmdResult.crashAfterKeyLoad priv

/-- Embeds cmd_verify from sgaip_cli.py: same input selection as cmd_sign,
with the public key loaded first. -/
def cmd_verify (pub : List Char) (message file : Option (List Char)) : CmdResult :=
  if truthy message then CmdResult.completed pub (SignData.inline (message.getD []))
  else
    match file with
    | some p => CmdResult.completed pub (SignData.fromFile p)
    | none => CmdResult.crashAfterKeyLoad pub

end StandaloneCli

namespace PackageCli

/-- Embeds cmd_sign from sgaip/cli.py: both-or-neither of message and file
raises SystemExit before the private key is read. -/
def cmd_sign (priv : List Char) (message file : Option (List Char)) : CmdResult :=
  if !truthy message && !truthy file then CmdResult.exitBeforeKeyLoad
  else if truthy message && truthy file then CmdResult.exitBeforeKeyLoad
  else if truthy message then CmdResult.completed priv (SignData.inline (message.getD []))
  else CmdResult.completed priv (SignData.fromFile (file.getD []))

/-- Embeds cmd_verify from sgaip/cli.py: same guards as cmd_sign, before
the public key is read. -/
def cmd_verify (pub : List Char) (message file : Option (List Char)) : CmdResult :=
  if !truthy message && !truthy file then CmdResult.exitBeforeKeyLoad
  else if truthy message && truthy file then CmdResult.exitBeforeKeyLoad
  else if truthy message then CmdResult.completed pub (SignData.inline (message.getD []))
  else CmdResult.completed pub (SignData.fromFile (file.getD []))

end PackageCli

/-- Uppercase rendering of a string, character by character. -/
def upperRender (s : List Char) : List Char := s.map Char.toUpper

/-- Flip bit i of a byte sequence: bit (i % 8) of byte (i / 8). -/
def flipBit (bs : List Nat) (i : Nat) : List Nat :=
  bs.set (i / 8) (bs.getD (i / 8) 0 ^^^ 2 ^ (i % 8))

/-! ## Helper lemmas -/

lemma hexChar_mem (n : Nat) : hexChar n ∈ hexDigits := by
  unfold hexChar
  have h : n % 16 < hexDigits.length := by
    have h16 : n % 16 < 16 := Nat.mod_lt _ (by decide)
    simpa [hexDigits] using h16
  rw [List.getD_eq_getElem _ _ h]
  exact List.getElem_mem h

lemma wordToHex_mem {c : Char} {w : Nat} (h : c ∈ wordToHex w) : c ∈ hexDigits := by
  simp only [wordToHex, List.mem_cons, List.not_mem_nil, or_false] at h
  rcases h with rfl | rfl | rfl | rfl | rfl | rfl | rfl | rfl <;> exact hexChar_mem _

lemma digestHex_length (s : Hash8) : (digestHex s).length = 64 := by
  simp [digestHex, wordToHex]

lemma digestHex_mem {c : Char} {s : Hash8} (h : c ∈ digestHex s) : c ∈ hexDigits := by
  simp only [digestHex, List.mem_append, or_assoc] at h
  rcases h with h | h | h | h | h | h | h | h <;> exact wordToHex_mem h

lemma map_ne_self_of_mem {α : Type} {f : α → α} {x : α} :
    ∀ {l : List α}, x ∈ l → f x ≠ x → l.map f ≠ l := by
  intro l
  induction l with
  | nil => intro hx; cases hx
  | cons a t ih =>
    intro hx hf h
    rw [List.map_cons] at h
    injection h with h1 h2
    rcases List.mem_cons.mp hx with h3 | h3
    · subst h3; exact hf h1
    · exact ih h3 hf h2

lemma xor_two_pow_ne (b k : Nat) : b ^^^ 2 ^ k ≠ b := by
  intro h
  have h2 : 2 ^ k = 0 := by
    calc 2 ^ k = 0 ^^^ 2 ^ k := (Nat.zero_xor _).symm
      _ = (b ^^^ b) ^^^ 2 ^ k := by rw [Nat.xor_self]
      _ = b ^^^ (b ^^^ 2 ^ k) := Nat.xor_assoc b b (2 ^ k)
      _ = b ^^^ b := by rw [h]
      _ = 0 := Nat.xor_self b
  have h3 : 0 < 2 ^ k := Nat.two_pow_pos k
  omega

lemma flipBit_ne {bs : List Nat} {i : Nat} (h : i < 8 * bs.length) : flipBit bs i ≠ bs := by
  intro heq
  have hidx : i / 8 < bs.length := by omega
  have hget : (flipBit bs i).getD (i / 8) 0 = bs.getD (i / 8) 0 ^^^ 2 ^ (i % 8) := by
    unfold flipBit
    rw [List.getD_eq_getElem _ _ (by simpa using hidx)]
    rw [List.getElem_set_self]
  rw [heq] at hget
  exact xor_two_pow_ne _ _ hget.symm

lemma Toy_verify_sign (sk c : List Nat) :
    Toy.verify (Toy.public_key sk) (Toy.sign sk c) c = true := by
  simp [Toy]

lemma Toy_chal (sk c : List Nat) :
    ∀ c', Toy.verify (Toy.public_key sk) (Toy.sign sk c) c' = true → c' = c := by
  intro c' h
  simp only [Toy, beq_iff_eq] at h
  have h2 := List.append_cancel_left h
  injection h2 with _ h3
  exact h3.symm

lemma Toy_suf (sk c : List Nat) :
    ∀ sig, Toy.verify (Toy.public_key sk) sig c = true → sig = Toy.sign sk c := by
  intro sig h
  simp only [Toy, beq_iff_eq] at h
  simpa [Toy] using h

lemma standalone_sign_ne_exit (p : List Char) (m f : Option (List Char)) :
    StandaloneCli.cmd_sign p m f ≠ CmdResult.exitBeforeKeyLoad := by
  unfold StandaloneCli.cmd_sign
  cases hm : truthy m
  · cases f <;> simp [hm]
  · simp [hm]

lemma standalone_verify_ne_exit (p : List Char) (m f : Option (List Char)) :
    StandaloneCli.cmd_verify p m f ≠ CmdResult.exitBeforeKeyLoad := by
  unfold StandaloneCli.cmd_verify
  cases hm : truthy m
  · cases f <;> simp [hm]
  · simp [hm]

lemma package_sign_exit (p : List Char) (m f : Option (List Char))
    (h : truthy m = truthy f) : PackageCli.cmd_sign p m f = CmdResult.exitBeforeKeyLoad := by
  unfold PackageCli.cmd_sign
  cases hm : truthy m <;> rw [hm] at h <;> simp [hm, ← h]

lemma package_verify_exit (p : List Char) (m f : Option (List Char))
    (h : truthy m = truthy f) : PackageCli.cmd_verify p m f = CmdResult.exitBeforeKeyLoad := by
  unfold PackageCli.cmd_verify
  cases hm : truthy m <;> rw [hm] at h <;> simp [hm, ← h]

/-! ## Claims -/

/-- C1: for every keypair produced by generate_keypair and every challenge
sequence, including the empty one, verify_proof accepts the proof built
from serialize_public_key and sign_challenge.  The two hypotheses are the
contract of the external Ed25519 library: raw serialization round-trips
through from_public_bytes, and an honestly produced signature verifies. -/
theorem sgaip_C1_roundtrip (E : Ed25519Lib) (entropy : E.PrivKey) (c : List Nat)
    (hrt : E.from_public_bytes (serialize_public_key E (generate_keypair E entropy).2) =
      some (generate_keypair E entropy).2)
    (hok : E.verify (generate_keypair E entropy).2
      (sign_challenge E (generate_keypair E entropy).1 c) c = true) :
    verify_proof E (serialize_public_key E (generate_keypair E entropy).2) c
      (sign_challenge E (generate_keypair E entropy).1 c) none = Except.ok true := by
  simp [verify_proof, hrt, hok]

/-- Witness for C1 at a concrete keypair and the empty challenge. -/
theorem sgaip_C1_roundtrip_witness :
    verify_proof Toy (serialize_public_key Toy (generate_keypair Toy [3]).2) []
      (sign_challenge Toy (generate_keypair Toy [3]).1 []) none = Except.ok true :=
  sgaip_C1_roundtrip Toy [3] [] rfl (by decide)

/-- C2: when the cryptographic check fails (the library verify call
rejects the signature), verify_proof raises InvalidSignature whatever
expected_aid holds, so the identity comparison is never reached. -/
theorem sgaip_C2_fail_closed (E : Ed25519Lib) (pkb c sig : List Nat) (pk : E.PubKey)
    (expected_aid : Option (List Char))
    (hpk : E.from_public_bytes pkb = some pk)
    (hfail : E.verify pk sig c = false) :
    verify_proof E pkb c sig expected_aid = Except.error PyError.invalidSignature := by
  simp [verify_proof, hpk, hfail]

/-- Witness for C2 at a concrete bad signature and a supplied expected
AID that would otherwise have matched. -/
theorem sgaip_C2_fail_closed_witness :
    verify_proof Toy [3] [] [0] (some (derive_agent_id [3])) =
      Except.error PyError.invalidSignature :=
  sgaip_C2_fail_closed Toy [3] [] [0] [3] (some (derive_agent_id [3])) rfl (by decide)

/-- C3: when the cryptographic check passes, verify_proof returns a
boolean: true when expected_aid is omitted, and otherwise exactly the
result of exact-length exact-content equality between the derived AID and
expected_aid, with false rather than an exception on a mismatch. -/
theorem sgaip_C3_boolean (E : Ed25519Lib) (pkb c sig : List Nat) (pk : E.PubKey)
    (expected : List Char)
    (hpk : E.from_public_bytes pkb = some pk)
    (hok : E.verify pk sig c = true) :
    verify_proof E pkb c sig none = Except.ok true ∧
    verify_proof E pkb c sig (some expected) = Except.ok (derive_agent_id pkb == expected) ∧
    (verify_proof E pkb c sig (some expected) = Except.ok true ↔
      derive_agent_id pkb = expected) := by
  refine ⟨by simp [verify_proof, hpk, hok], by simp [verify_proof, hpk, hok], ?_⟩
  simp [verify_proof, hpk, hok]

/-- Witness for C3 at a concrete valid proof and a mismatching expected
AID, on which verify_proof returns ok with the comparison outcome. -/
theorem sgaip_C3_boolean_witness :
    verify_proof Toy [3] [] [3, 255] none = Except.ok true ∧
    verify_proof Toy [3] [] [3, 255] (some ['x']) = Except.ok (derive_agent_id [3] == ['x']) ∧
    (verify_proof Toy [3] [] [3, 255] (some ['x']) = Except.ok true ↔
      derive_agent_id [3] = ['x']) :=
  sgaip_C3_boolean Toy [3] [] [3, 255] [3] ['x'] rfl (by decide)

/-- C4: an honest signature over challenge c is rejected by verify_proof
under any different challenge, and rejected after flipping any single bit
of the signature.  The hypotheses are the library contract: serialization
round-trips, a signature over c verifies under no other challenge, and
for this key and challenge only the honest signature verifies. -/
theorem sgaip_C4_tamper (E : Ed25519Lib) (entropy : E.PrivKey) (c c' : List Nat) (i : Nat)
    (hrt : E.from_public_bytes (serialize_public_key E (E.public_key entropy)) =
      some (E.public_key entropy))
    (hchal : ∀ d, E.verify (E.public_key entropy) (E.sign entropy c) d = true → d = c)
    (hsuf : ∀ sig, E.verify (E.public_key entropy) sig c = true → sig = E.sign entropy c)
    (hne : c' ≠ c)
    (hi : i < 8 * (sign_challenge E entropy c).length) :
    verify_proof E (serialize_public_key E (E.public_key entropy)) c'
      (sign_challenge E entropy c) none = Except.error PyError.invalidSignature ∧
    verify_proof E (serialize_public_key E (E.public_key entropy)) c
      (flipBit (sign_challenge E entropy c) i) none = Except.error PyError.invalidSignature := by
  have h1 : E.verify (E.public_key entropy) (E.sign entropy c) c' = false := by
    cases hv : E.verify (E.public_key entropy) (E.sign entropy c) c'
    · rfl
    · exact absurd (hchal c' hv) hne
  have h2 : E.verify (E.public_key entropy) (flipBit (E.sign entropy c) i) c = false := by
    cases hv : E.verify (E.public_key entropy) (flipBit (E.sign entropy c) i) c
    · rfl
    · exact absurd (hsuf _ hv) (flipBit_ne hi)
  constructor <;> simp [verify_proof, sign_challenge, hrt, h1, h2]

/-- Witness for C4 at a concrete keypair, challenge, substituted
challenge, and bit position zero of the signature. -/
theorem sgaip_C4_tamper_witness :
    verify_proof Toy (serialize_public_key Toy (Toy.public_key [3])) [2]
      (sign_challenge Toy [3] [1]) none = Except.error PyError.invalidSignature ∧
    verify_proof Toy (serialize_public_key Toy (Toy.public_key [3])) [1]
      (flipBit (sign_challenge Toy [3] [1]) 0) none = Except.error PyError.invalidSignature :=
  sgaip_C4_tamper Toy [3] [1] [2] 0 rfl (Toy_chal [3] [1]) (Toy_suf [3] [1])
    (by decide) (by decide)

/-- C5: derive_agent_id is the lowercase hex sha256 digest of its input
concatenated with the fixed 8 byte ASCII tag SGAIP-v1, and its output has
64 characters drawn from the lowercase hex digits whatever the length of
the input. -/
theorem sgaip_C5_derive (k : List Nat) :
    derive_agent_id k = sha256hex (k ++ IDENTITY_DOMAIN) ∧
    IDENTITY_DOMAIN = "SGAIP-v1".toList.map Char.toNat ∧
    IDENTITY_DOMAIN.length = 8 ∧
    (derive_agent_id k).length = 64 ∧
    ∀ ch ∈ derive_agent_id k, ch ∈ hexDigits := by
  refine ⟨rfl, by decide, by decide, ?_, ?_⟩
  · simpa [derive_agent_id, sha256hex] using
      digestHex_length (sha256 (k ++ IDENTITY_DOMAIN))
  · intro ch h
    exact digestHex_mem (by simpa [derive_agent_id, sha256hex] using h)

set_option maxRecDepth 100000 in
/-- Witness for C5: the first character of the AID of the empty key is a
lowercase hex digit, via the theorem at a concrete input. -/
theorem sgaip_C5_derive_witness :
    derive_agent_id [] = sha256hex ([] ++ IDENTITY_DOMAIN) ∧ '6' ∈ hexDigits :=
  ⟨(sgaip_C5_derive []).1, (sgaip_C5_derive []).2.2.2.2 '6' (by decide)⟩

/-- C6 counterexample: in the standalone CLI, supplying both an inline
message and a file is not rejected; cmd_sign loads the private key and
signs the inline message. -/
theorem sgaip_C6_counterexample :
    StandaloneCli.cmd_sign ['k'] (some ['m']) (some ['f']) =
      CmdResult.completed ['k'] (SignData.inline ['m']) ∧
    StandaloneCli.cmd_sign ['k'] (some ['m']) (some ['f']) ≠
      CmdResult.exitBeforeKeyLoad := by
  decide

/-- C6 amended: only the package CLI validates the mutually exclusive
inputs.  When both or neither of message and file are supplied, package
cmd_sign and cmd_verify exit before key material is read, while the
standalone CLI never exits before loading the key. -/
theorem sgaip_C6_amended_exclusivity (priv pub : List Char) (message file : Option (List Char))
    (hmf : truthy message = truthy file) :
    PackageCli.cmd_sign priv message file = CmdResult.exitBeforeKeyLoad ∧
    PackageCli.cmd_verify pub message file = CmdResult.exitBeforeKeyLoad ∧
    StandaloneCli.cmd_sign priv message file ≠ CmdResult.exitBeforeKeyLoad ∧
    StandaloneCli.cmd_verify pub message file ≠ CmdResult.exitBeforeKeyLoad :=
  ⟨package_sign_exit priv message file hmf, package_verify_exit pub message file hmf,
   standalone_sign_ne_exit priv message file, standalone_verify_ne_exit pub message file⟩

/-- Witness for the amended C6 at concrete conflicting inputs. -/
theorem sgaip_C6_amended_exclusivity_witness :
    PackageCli.cmd_sign ['k'] (some ['m']) (some ['f']) = CmdResult.exitBeforeKeyLoad ∧
    PackageCli.cmd_verify ['p'] (some ['m']) (some ['f']) = CmdResult.exitBeforeKeyLoad ∧
    StandaloneCli.cmd_sign ['k'] (some ['m']) (some ['f']) ≠ CmdResult.exitBeforeKeyLoad ∧
    StandaloneCli.cmd_verify ['p'] (some ['m']) (some ['f']) ≠ CmdResult.exitBeforeKeyLoad :=
  sgaip_C6_amended_exclusivity ['k'] ['p'] (some ['m']) (some ['f']) (by decide)

/-- C7: derive_agent_id is total over byte sequences of any length and
always yields a 64 character digest; its Lean embedding has no error
branch, mirroring the absence of a length check in the source. -/
theorem sgaip_C7_total (k : List Nat) : (derive_agent_id k).length = 64 := by
  simpa [derive_agent_id, sha256hex] using
    digestHex_length (sha256 (k ++ IDENTITY_DOMAIN))

/-- C8: the standalone CLI derive_aid and the package derive_agent_id
compute the same function over every byte sequence. -/
theorem sgaip_C8_same_function : ∀ k : List Nat, derive_aid k = derive_agent_id k :=
  fun _ => rfl

/-- C9: with expected_aid omitted, verify_proof never returns false: every
run returns true or raises. -/
theorem sgaip_C9_no_false_when_none (E : Ed25519Lib) (pkb c sig : List Nat) :
    verify_proof E pkb c sig none ≠ Except.ok false := by
  unfold verify_proof
  cases h : E.from_public_bytes pkb with
  | none => simp
  | some pk => cases hv : E.verify pk sig c <;> simp [hv]

/-- Witness for C9 at concrete inputs on which the signature is invalid. -/
theorem sgaip_C9_no_false_when_none_witness :
    verify_proof Toy [3] [] [0] none ≠ Except.ok false :=
  sgaip_C9_no_false_when_none Toy [3] [] [0]

/-- C10: the identity comparison is case sensitive: for a key whose AID
contains an alphabetic hex digit, a validly signed proof checked against
the uppercase rendering of the correct AID returns false, since
derive_agent_id produces lowercase hex and comparison is plain string
equality. -/
theorem sgaip_C10_case_sensitive (E : Ed25519Lib) (pkb c sig : List Nat) (pk : E.PubKey)
    (hpk : E.from_public_bytes pkb = some pk)
    (hok : E.verify pk sig c = true)
    (halpha : ∃ ch, ch ∈ derive_agent_id pkb ∧
      ch ∈ (['a', 'b', 'c', 'd', 'e', 'f'] : List Char)) :
    verify_proof E pkb c sig (some (upperRender (derive_agent_id pkb))) =
      Except.ok false := by
  obtain ⟨ch, hmem, hch⟩ := halpha
  have hne : upperRender (derive_agent_id pkb) ≠ derive_agent_id pkb := by
    apply map_ne_self_of_mem hmem
    simp only [List.mem_cons, List.not_mem_nil, or_false] at hch
    rcases hch with rfl | rfl | rfl | rfl | rfl | rfl <;> decide
  have hbeq : (derive_agent_id pkb == upperRender (derive_agent_id pkb)) = false := by
    simp only [beq_eq_false_iff_ne]
    exact fun h => hne h.symm
  simp [verify_proof, hpk, hok, hbeq]

set_option maxRecDepth 100000 in
/-- Witness for C10 at the empty key, whose AID contains the letter a. -/
theorem sgaip_C10_case_sensitive_witness :
    verify_proof Toy [] [] [255] (some (upperRender (derive_agent_id []))) =
      Except.ok false :=
  sgaip_C10_case_sensitive Toy [] [] [255] [] rfl (by decide) (by decide)

end Sgaip
